import Mathlib

/-!
# SentinelAI — shallow embedding of the abuse-detection & escalation engine

This file embeds, in Lean, the parts of the SentinelAI Discord moderation bot
that the verified properties talk about:

* the anti-nuke subsystem of `src/security/antinuke.js`
  (`trackAction`, `isNightMode`, `getEffectiveLimit`, `isWhitelisted`,
  `punishUser`, `handleChannelDelete`, `initiateServerLockdown`,
  `unlockServer`, and the settings cache `getSettings`);
* the settings persistence of `src/database/supabase.js`
  (`updateAntiNukeSettings`, `logSecurityEvent`) at the level of a
  cache/database state pair;
* the content-moderation enforcement chain of `src/bot/actions.js`
  (`handleKick` → `handleMute` → `handleDelete`);
* the content risk engine of `src/moderation/groq-engine.js`
  (`analyzeMessageWithGroq`, `shouldRequireCaptcha`, `adjustForUserHistory`,
  `fallbackAnalysis`, `determineAction`).

JavaScript timestamps are modelled as `Nat` milliseconds, the per-key
`actionTracker` map as a function from the composite string key to the stored
timestamp list, and environmental effects (audit-log lookup, database success
or failure, Discord API success or failure, the wall-clock hour in the
configured timezone) as explicit parameters.  JavaScript `x || d` on a number
is modelled as `if x = 0 then d else x` (`0` is the only falsy `Nat` here).
-/

namespace SentinelAI

/-- Per-tenant anti-nuke policy, mirroring `DEFAULT_SETTINGS` of
`src/security/antinuke.js` field for field (camelCase keys). -/
structure AntiNukeSettings where
  enabled : Bool
  channelDeleteLimit : Nat
  channelCreateLimit : Nat
  roleDeleteLimit : Nat
  roleCreateLimit : Nat
  banLimit : Nat
  kickLimit : Nat
  webhookCreateLimit : Nat
  memberPruneLimit : Nat
  timeWindow : Nat
  punishmentType : String
  notifyOwner : Bool
  lockdownOnTrigger : Bool
  whitelist : List String
  nightmodeEnabled : Bool
  nightmodeStartHour : Nat
  nightmodeEndHour : Nat
  nightmodeTimezone : String
  nightmodeStricterLimits : Bool
  nightmodeAutoLock : Bool
  nightmodeChannelDeleteLimit : Nat
  nightmodeChannelCreateLimit : Nat
  nightmodeRoleDeleteLimit : Nat
  nightmodeRoleCreateLimit : Nat
  nightmodeBanLimit : Nat
  nightmodeKickLimit : Nat
  nightmodeWebhookCreateLimit : Nat
deriving DecidableEq, Repr

/-- The `DEFAULT_SETTINGS` constant of `src/security/antinuke.js`. -/
def DEFAULT_SETTINGS : AntiNukeSettings where
  enabled := true
  channelDeleteLimit := 3
  channelCreateLimit := 5
  roleDeleteLimit := 3
  roleCreateLimit := 5
  banLimit := 3
  kickLimit := 5
  webhookCreateLimit := 3
  memberPruneLimit := 10
  timeWindow := 10000
  punishmentType := "BAN"
  notifyOwner := true
  lockdownOnTrigger := true
  whitelist := []
  nightmodeEnabled := false
  nightmodeStartHour := 23
  nightmodeEndHour := 7
  nightmodeTimezone := "UTC"
  nightmodeStricterLimits := true
  nightmodeAutoLock := true
  nightmodeChannelDeleteLimit := 1
  nightmodeChannelCreateLimit := 2
  nightmodeRoleDeleteLimit := 1
  nightmodeRoleCreateLimit := 2
  nightmodeBanLimit := 1
  nightmodeKickLimit := 2
  nightmodeWebhookCreateLimit := 1

/-- The half-open wrap-around interval test at the heart of `isNightMode`:
`if (startHour > endHour) hour ≥ start || hour < end else hour ≥ start && hour < end`. -/
def nightIntervalCheck (startHour endHour currentHour : Nat) : Bool :=
  if startHour > endHour then
    decide (currentHour ≥ startHour) || decide (currentHour < endHour)
  else
    decide (currentHour ≥ startHour) && decide (currentHour < endHour)

/-- `AntiNukeSystem.isNightMode` of `src/security/antinuke.js`.
`currentHour` stands for the hour extracted from `toLocaleString` in the
configured timezone (the hour resolution itself is environmental; a timezone
failure takes the `catch` branch and returns `false`, which corresponds to
calling this only on a successfully resolved hour).  The JavaScript
`settings.nightmodeStartHour || 23` and `settings.nightmodeEndHour || 7`
default a falsy (zero) configured hour, hence the `if … = 0` tests. -/
def isNightMode (s : AntiNukeSettings) (currentHour : Nat) : Bool :=
  if !s.nightmodeEnabled then false
  else
    let startHour := if s.nightmodeStartHour = 0 then 23 else s.nightmodeStartHour
    let endHour := if s.nightmodeEndHour = 0 then 7 else s.nightmodeEndHour
    nightIntervalCheck startHour endHour currentHour

/-- The per-action-kind limit fields addressed by the dynamic string key
`limitType` in `getEffectiveLimit`. -/
inductive LimitType where
  | channelDeleteLimit
  | channelCreateLimit
  | roleDeleteLimit
  | roleCreateLimit
  | banLimit
  | kickLimit
  | webhookCreateLimit
  | memberPruneLimit
deriving DecidableEq, Repr

/-- `settings[limitType]` for the standard (day-time) limits. -/
def standardLimit (s : AntiNukeSettings) : LimitType → Nat
  | .channelDeleteLimit => s.channelDeleteLimit
  | .channelCreateLimit => s.channelCreateLimit
  | .roleDeleteLimit => s.roleDeleteLimit
  | .roleCreateLimit => s.roleCreateLimit
  | .banLimit => s.banLimit
  | .kickLimit => s.kickLimit
  | .webhookCreateLimit => s.webhookCreateLimit
  | .memberPruneLimit => s.memberPruneLimit

/-- `settings["nightmode" + capitalize(limitType)]`: the night-mode variant of
each limit field; `none` where no such field exists (member prune has no
night-mode counterpart in the settings object). -/
def nightmodeLimit (s : AntiNukeSettings) : LimitType → Option Nat
  | .channelDeleteLimit => some s.nightmodeChannelDeleteLimit
  | .channelCreateLimit => some s.nightmodeChannelCreateLimit
  | .roleDeleteLimit => some s.nightmodeRoleDeleteLimit
  | .roleCreateLimit => some s.nightmodeRoleCreateLimit
  | .banLimit => some s.nightmodeBanLimit
  | .kickLimit => some s.nightmodeKickLimit
  | .webhookCreateLimit => some s.nightmodeWebhookCreateLimit
  | .memberPruneLimit => none

/-- `AntiNukeSystem.getEffectiveLimit` of `src/security/antinuke.js`.
A missing or zero night-mode field is falsy in
`settings[nightModeLimitKey] || settings[limitType]`, so it falls back to the
standard limit. -/
def getEffectiveLimit (s : AntiNukeSettings) (t : LimitType) (currentHour : Nat) : Nat :=
  if !isNightMode s currentHour || !s.nightmodeStricterLimits then
    standardLimit s t
  else
    match nightmodeLimit s t with
    | none => standardLimit s t
    | some v => if v = 0 then standardLimit s t else v

/-- The composite key `` `${guildId}-${userId}-${actionType}` `` used by the
module-level `actionTracker` map. -/
def trackKey (guildId userId actionType : String) : String :=
  guildId ++ "-" ++ userId ++ "-" ++ actionType

/-- The module-level `actionTracker` map of `src/security/antinuke.js`: every
key holds its list of timestamps (a missing key behaves as the empty list,
matching the `if (!actionTracker.has(key)) actionTracker.set(key, [])`
initialisation). -/
def Tracker : Type := String → List Nat

/-- The tracker state with no recorded action. -/
def emptyTracker : Tracker := fun _ => []

/-- `AntiNukeSystem.trackAction` of `src/security/antinuke.js`: filter the
stored timestamps of the key to those with `now - time < settings.timeWindow`,
append `now`, store the result and return its length. -/
def trackAction (tracker : Tracker) (guildId userId actionType : String)
    (now : Nat) (s : AntiNukeSettings) : Tracker × Nat :=
  let key := trackKey guildId userId actionType
  let actions := tracker key
  let validActions := (actions.filter fun time => now - time < s.timeWindow) ++ [now]
  (fun k => if k = key then validActions else tracker k, validActions.length)

/-- A sequence of `trackAction` calls for one `(guild, user, action-kind)` key,
one call per listed timestamp, collecting the returned counts in order. -/
def trackActionSeq (tracker : Tracker) (guildId userId actionType : String)
    (times : List Nat) (s : AntiNukeSettings) : Tracker × List Nat :=
  match times with
  | [] => (tracker, [])
  | t :: rest =>
    let step := trackAction tracker guildId userId actionType t s
    let tail := trackActionSeq step.1 guildId userId actionType rest s
    (tail.1, step.2 :: tail.2)

/-- A Discord role, reduced to the permission bits `punishUser` inspects. -/
structure Role where
  id : String
  administrator : Bool
  manageGuild : Bool
  manageRoles : Bool
deriving DecidableEq, Repr

/-- The `dangerousRoles` filter of `punishUser`: a role holding
Administrator, ManageGuild or ManageRoles. -/
def dangerousRole (r : Role) : Bool :=
  r.administrator || r.manageGuild || r.manageRoles

/-- A guild (tenant), reduced to the attributes the anti-nuke system reads. -/
structure Guild where
  id : String
  ownerId : String
deriving DecidableEq, Repr

/-- A guild member, reduced to the attributes `punishUser` reads. -/
structure Member where
  id : String
  roles : List Role
deriving DecidableEq, Repr

/-- Everything `punishUser` does to the platform on one invocation. -/
structure PunishOutcome where
  rolesRemoved : List Role
  banned : Bool
  kicked : Bool
  rolesCleared : Bool
  ownerNotified : Bool
  lockdownInitiated : Bool
deriving DecidableEq, Repr

/-- The outcome of an aborted or skipped `punishUser` call: nothing happens. -/
def noPunish : PunishOutcome where
  rolesRemoved := []
  banned := false
  kicked := false
  rolesCleared := false
  ownerNotified := false
  lockdownInitiated := false

/-- `AntiNukeSystem.punishUser` of `src/security/antinuke.js`.
`member` is the result of `guild.members.fetch(user.id).catch(() => null)`;
a failed fetch (`none`) returns without acting, and so does the guild owner.
Otherwise the dangerous roles are removed, the configured punishment kind is
applied (`switch (settings.punishmentType)`; an unknown kind applies none),
the owner is notified when `settings.notifyOwner`, and a lockdown is
initiated when `settings.lockdownOnTrigger` or night mode with
`settings.nightmodeAutoLock`. -/
def punishUser (s : AntiNukeSettings) (currentHour : Nat) (guild : Guild)
    (member : Option Member) : PunishOutcome :=
  match member with
  | none => noPunish
  | some m =>
    if m.id = guild.ownerId then noPunish
    else
      let isNight := isNightMode s currentHour
      { rolesRemoved := m.roles.filter dangerousRole
        banned := s.punishmentType = "BAN"
        kicked := s.punishmentType = "KICK"
        rolesCleared := s.punishmentType = "STRIP_ROLES"
        ownerNotified := s.notifyOwner
        lockdownInitiated := s.lockdownOnTrigger || (isNight && s.nightmodeAutoLock) }

/-- `AntiNukeSystem.isWhitelisted` of `src/security/antinuke.js`:
`settings.whitelist.includes(userId) || trustedUsers.some(u => u.discord_user_id === userId)`.
`trustedUsers` is the list of trusted user ids fetched from the database. -/
def isWhitelisted (s : AntiNukeSettings) (trustedUsers : List String)
    (userId : String) : Bool :=
  s.whitelist.contains userId || trustedUsers.contains userId

/-- `logSecurityEvent` of `src/database/supabase.js`, abstracted to its
failure behaviour: a database error is rethrown to the caller
(`throw error` in both the insert branch and the outer catch). -/
def logSecurityEvent (dbFails : Bool) : Except String Unit :=
  if dbFails then Except.error "db" else Except.ok ()

/-- The environment of one `channelDelete` event: the cached settings, the
resolved local hour, the audit-log attribution, the trusted-user list, the
attempted member fetch for the executor, the wall clock and whether the
security-event insert fails. -/
structure ChannelDeleteEnv where
  settings : AntiNukeSettings
  currentHour : Nat
  guild : Guild
  channelName : String
  trustedUsers : List String
  auditExecutor : Option String
  executorMember : Option Member
  now : Nat
  dbLogFails : Bool

/-- What one run of `handleChannelDelete` did. -/
structure ChannelDeleteOutcome where
  tracked : Bool
  count : Option Nat
  punish : Option PunishOutcome
  channelRestored : Bool
  auditAttempted : Bool
  auditLogged : Bool
deriving DecidableEq, Repr

/-- Outcome of a run that returned before tracking: disabled protection,
failed attribution, or a whitelisted executor. -/
def channelDeleteSkipped : ChannelDeleteOutcome where
  tracked := false
  count := none
  punish := none
  channelRestored := false
  auditAttempted := false
  auditLogged := false

/-- `AntiNukeSystem.handleChannelDelete` of `src/security/antinuke.js`.
Mirrors the source's control flow: return if the protection is disabled, if
the audit log yields no executor, or if the executor is whitelisted
(only a console line is printed in that case — the early `return` comes
before `logSecurityEvent`); otherwise track the action, punish and restore
the channel when the count reaches the effective limit, then attempt the
security-event insert inside its own try/catch (`catch (dbError)` only logs
to the console).  The outer try/catch swallows every remaining failure, so
the function always produces a value rather than an error. -/
def handleChannelDelete (env : ChannelDeleteEnv) (tracker : Tracker) :
    Tracker × ChannelDeleteOutcome :=
  let s := env.settings
  if !s.enabled then (tracker, channelDeleteSkipped)
  else
    let limit := getEffectiveLimit s .channelDeleteLimit env.currentHour
    match env.auditExecutor with
    | none => (tracker, channelDeleteSkipped)
    | some executor =>
      if isWhitelisted s env.trustedUsers executor then (tracker, channelDeleteSkipped)
      else
        let tracked := trackAction tracker env.guild.id executor "CHANNEL_DELETE" env.now s
        let count := tracked.2
        let punish :=
          if count ≥ limit then
            some (punishUser s env.currentHour env.guild env.executorMember)
          else none
        let auditLogged :=
          match logSecurityEvent env.dbLogFails with
          | Except.ok _ => true
          | Except.error _ => false
        (tracked.1,
          { tracked := true
            count := some count
            punish := punish
            channelRestored := count ≥ limit
            auditAttempted := true
            auditLogged := auditLogged })

/-- The send-permission overwrite a channel holds for the default (`@everyone`)
role: explicitly allowed, explicitly denied, or neutral (no overwrite —
`SendMessages: null` clears the entry). -/
inductive PermState where
  | allow
  | deny
  | neutral
deriving DecidableEq, Repr

/-- A guild channel, reduced to what lockdown and unlock touch. -/
structure GuildChannel where
  name : String
  textBased : Bool
  everyoneSendMessages : PermState
deriving DecidableEq, Repr

/-- The name of the announcement channel `initiateServerLockdown` creates. -/
def lockdownChannelName (isNight : Bool) : String :=
  if isNight then "🌙-night-lockdown" else "🔒-server-lockdown"

/-- `AntiNukeSystem.initiateServerLockdown` of `src/security/antinuke.js`:
set the default role's SendMessages overwrite of every text-based channel to
denied, then create the announcement channel (a plain text channel, created
after the loop, hence not itself locked).  `isNight` is
`isNightMode(settings)` at the current hour. -/
def initiateServerLockdown (channels : List GuildChannel) (isNight : Bool) :
    List GuildChannel :=
  (channels.map fun c =>
    if c.textBased then { c with everyoneSendMessages := PermState.deny } else c)
    ++ [{ name := lockdownChannelName isNight
          textBased := true
          everyoneSendMessages := PermState.neutral }]

/-- `AntiNukeSystem.unlockServer` of `src/security/antinuke.js`: over the
text-based channels, delete those named `🔒-server-lockdown` or
`🌙-night-lockdown` and set every other one's SendMessages overwrite for the
default role to `null` (neutral).  Non-text channels are not iterated. -/
def unlockServer (channels : List GuildChannel) : List GuildChannel :=
  channels.filterMap fun c =>
    if !c.textBased then some c
    else if c.name = "🔒-server-lockdown" || c.name = "🌙-night-lockdown" then none
    else some { c with everyoneSendMessages := PermState.neutral }

/-- The settings state visible to one `AntiNukeSystem` process: the in-memory
`this.settings` map and the `antinuke_settings` database table, both keyed by
guild id. -/
structure SettingsStore where
  cache : String → Option AntiNukeSettings
  db : String → Option AntiNukeSettings

/-- `AntiNukeSystem.getSettings` of `src/security/antinuke.js`: a cache hit is
returned as is; otherwise the database row (or `DEFAULT_SETTINGS` when there
is none) is loaded and cached. -/
def getSettings (st : SettingsStore) (guildId : String) :
    SettingsStore × AntiNukeSettings :=
  match st.cache guildId with
  | some s => (st, s)
  | none =>
    let s := (st.db guildId).getD DEFAULT_SETTINGS
    ({ st with cache := fun g => if g = guildId then some s else st.cache g }, s)

/-- `updateAntiNukeSettings` of `src/database/supabase.js`: writes the new
settings to the guild's database row (the partial-field SQL `update` is
modelled as storing the resulting row).  It does not touch any in-memory
cache. -/
def updateAntiNukeSettings (st : SettingsStore) (guildId : String)
    (s : AntiNukeSettings) : SettingsStore :=
  { st with db := fun g => if g = guildId then some s else st.db g }

/-- The `enable`/`disable`/`config` subcommands of `handleAntiNuke` in
`src/commands/handlers.js`: they call `updateAntiNukeSettings` and edit the
reply; no code path invalidates or updates `antiNuke.settings` (the instance
is in scope — it is used only for the `unlock` subcommand). -/
def handleAntiNukeUpdate (st : SettingsStore) (guildId : String)
    (s : AntiNukeSettings) : SettingsStore :=
  updateAntiNukeSettings st guildId s

/-- The platform conditions one content-moderation enforcement runs under,
for `src/bot/actions.js`: whether the member object resolved, the
`member.kickable` / `member.moderatable` / `message.deletable` capability
flags, and whether the kick and timeout API calls succeed. -/
structure ContentModEnv where
  memberPresent : Bool
  kickable : Bool
  moderatable : Bool
  deletable : Bool
  kickSucceeds : Bool
  timeoutSucceeds : Bool
deriving DecidableEq, Repr

/-- `member.kick(...)` as seen by `handleKick`: may reject. -/
def kickMemberOp (env : ContentModEnv) : Except String Unit :=
  if env.kickSucceeds then Except.ok () else Except.error "kick failed"

/-- `member.timeout(...)` as seen by `handleMute`: may reject. -/
def timeoutMemberOp (env : ContentModEnv) : Except String Unit :=
  if env.timeoutSucceeds then Except.ok () else Except.error "timeout failed"

/-- Which enforcement tier a handler of `src/bot/actions.js` ended up
applying (notification side effects aside). -/
inductive AppliedTier where
  | kicked
  | muted
  | deletedMessage
  | noAction
deriving DecidableEq, Repr

/-- `handleDelete` of `src/bot/actions.js`: deletes the message when
`message.deletable`; its try/catch swallows every failure. -/
def handleDelete (env : ContentModEnv) : AppliedTier :=
  if env.deletable then AppliedTier.deletedMessage else AppliedTier.noAction

/-- `handleMute` of `src/bot/actions.js`: when the member is missing or not
`moderatable` it falls back to `handleDelete`; otherwise it applies the
timeout, and its catch block also falls back to `handleDelete` when the
timeout call fails. -/
def handleMute (env : ContentModEnv) : AppliedTier :=
  if env.memberPresent && env.moderatable then
    match timeoutMemberOp env with
    | Except.ok _ => AppliedTier.muted
    | Except.error _ => handleDelete env
  else handleDelete env

/-- `handleKick` of `src/bot/actions.js`: when the member is missing or not
`kickable` it falls back to `handleMute`; otherwise it kicks, and its catch
block also falls back to `handleMute` when the kick call fails. -/
def handleKick (env : ContentModEnv) : AppliedTier :=
  if env.memberPresent && env.kickable then
    match kickMemberOp env with
    | Except.ok _ => AppliedTier.kicked
    | Except.error _ => handleMute env
  else handleMute env

/-- The `switch` of `executeAction` in `src/bot/actions.js`, restricted to
the enforcement tiers (WARN/CAPTCHA only send notifications).  Returns the
action string the function returns to its caller together with the tier that
was actually applied; the surrounding try/catch would return `"ERROR"` only
if a handler threw, and every handler catches its own failures. -/
def executeAction (recommendedAction : String) (env : ContentModEnv) :
    String × AppliedTier :=
  match recommendedAction with
  | "ALLOW" => ("ALLOW", AppliedTier.noAction)
  | "CAPTCHA" => ("CAPTCHA", AppliedTier.noAction)
  | "WARN" => ("WARN", AppliedTier.noAction)
  | "DELETE" => ("DELETE", handleDelete env)
  | "MUTE" => ("MUTE", handleMute env)
  | "KICK" => ("KICK", handleKick env)
  | _ => ("ALLOW", AppliedTier.noAction)

/-- The input bundle `analyzeMessageWithGroq` receives
(`src/moderation/groq-engine.js`). -/
structure ModerationInput where
  message_content : String
  message_history : List String
  user_account_age_days : Nat
  server_join_age_minutes : Nat
  attachments_present : Bool
  links_present : Bool
  image_uploaded : Bool
  previous_warnings_count : Nat
  captcha_verified : Bool
  user_id : String
deriving DecidableEq, Repr

/-- A moderation decision as returned by the risk engine. -/
structure ModerationResult where
  risk_score : Nat
  risk_level : String
  detected_categories : List String
  recommended_action : String
  reasoning : String
deriving DecidableEq, Repr

/-- The fixed decision returned for the bot owner
(both in `analyzeMessageWithGroq` and in `fallbackAnalysis`). -/
def ownerBypassResult : ModerationResult where
  risk_score := 0
  risk_level := "SAFE"
  detected_categories := []
  recommended_action := "ALLOW"
  reasoning := "Bot owner - moderation bypassed"

/-- The fixed decision returned when the CAPTCHA gate fires. -/
def captchaRequiredResult : ModerationResult where
  risk_score := 50
  risk_level := "SUSPICIOUS"
  detected_categories := ["NEW_USER_UNVERIFIED"]
  recommended_action := "CAPTCHA"
  reasoning := "New or flagged user has not completed CAPTCHA verification."

/-- `shouldRequireCaptcha` of `src/moderation/groq-engine.js`. -/
def shouldRequireCaptcha (input : ModerationInput) : Bool :=
  if input.captcha_verified then false
  else
    decide (input.user_account_age_days < 7)
      || decide (input.server_join_age_minutes < 10)
      || decide (input.previous_warnings_count > 0)

/-- The banding expression shared by `adjustForUserHistory` and
`fallbackAnalysis`: `score <= 30 → SAFE`, `score <= 65 → SUSPICIOUS`,
else `DANGEROUS`. -/
def riskLevelOf (score : Nat) : String :=
  if score ≤ 30 then "SAFE" else if score ≤ 65 then "SUSPICIOUS" else "DANGEROUS"

/-- `determineAction` of `src/moderation/groq-engine.js`. -/
def determineAction (score : Nat) (riskLevel : String) (warningCount : Nat) : String :=
  if riskLevel = "SAFE" then "ALLOW"
  else if riskLevel = "SUSPICIOUS" then
    if warningCount = 0 then "WARN"
    else if warningCount = 1 then "DELETE"
    else "MUTE"
  else if riskLevel = "DANGEROUS" then
    if score ≥ 85 ∧ warningCount ≥ 2 then "KICK"
    else if score ≥ 70 then "MUTE"
    else "DELETE"
  else "WARN"

/-- `adjustForUserHistory` of `src/moderation/groq-engine.js`: for repeat
offenders, raise the score by `10` per warning (clamped to `100`) and
escalate the action through the `if`/`else if` chain, then always recompute
the risk level from the (possibly updated) score. -/
def adjustForUserHistory (ai : ModerationResult) (input : ModerationInput) :
    ModerationResult :=
  let warnings := input.previous_warnings_count
  let score := if warnings > 0 then min (ai.risk_score + warnings * 10) 100 else ai.risk_score
  let action :=
    if warnings > 0 then
      if warnings ≥ 3 ∧ ai.recommended_action = "WARN" then "MUTE"
      else if warnings ≥ 2 ∧ ai.recommended_action = "DELETE" then "MUTE"
      else if warnings ≥ 4 ∧ ai.recommended_action = "MUTE" then "KICK"
      else ai.recommended_action
    else ai.recommended_action
  { ai with
      risk_score := score
      risk_level := riskLevelOf score
      recommended_action := action }

/-- How many patterns of each fixed regex set of `fallbackAnalysis` match the
message content.  The JavaScript `RegExp.test` evaluation itself is
environmental here; each count is at most the size of its pattern set
(3 spam, 3 scam, 2 harassment patterns in the source). -/
structure RegexHits where
  spamHits : Nat
  scamHits : Nat
  harassmentHits : Nat
deriving DecidableEq, Repr

/-- `fallbackAnalysis` of `src/moderation/groq-engine.js`: the rule-based
classifier used when the Groq call fails.  Scores `+20` per matched spam
pattern, `+30` per scam pattern, `+25` per harassment pattern, `+10` for a
young account, `+15` for an immediate post-join, `+10` for links and
`+10 × warnings`, clamps to `100`, bands the level and derives the action
with `determineAction`.  The owner check at its top mirrors the source. -/
def fallbackAnalysis (ownerId : String) (rx : RegexHits)
    (input : ModerationInput) : ModerationResult :=
  if input.user_id = ownerId then ownerBypassResult
  else
    let categories :=
      (if rx.spamHits > 0 then ["SPAM"] else [])
        ++ (if rx.scamHits > 0 then ["SCAM"] else [])
        ++ (if rx.harassmentHits > 0 then ["HARASSMENT"] else [])
        ++ (if input.user_account_age_days < 7 then ["NEW_ACCOUNT"] else [])
        ++ (if input.server_join_age_minutes < 5 then ["IMMEDIATE_POST_JOIN"] else [])
        ++ (if input.links_present then ["CONTAINS_LINKS"] else [])
        ++ (if input.previous_warnings_count > 0 then ["REPEAT_OFFENDER"] else [])
    let score :=
      min
        (20 * rx.spamHits + 30 * rx.scamHits + 25 * rx.harassmentHits
          + (if input.user_account_age_days < 7 then 10 else 0)
          + (if input.server_join_age_minutes < 5 then 15 else 0)
          + (if input.links_present then 10 else 0)
          + (if input.previous_warnings_count > 0 then
              input.previous_warnings_count * 10 else 0))
        100
    let level := riskLevelOf score
    { risk_score := score
      risk_level := level
      detected_categories := categories
      recommended_action := determineAction score level input.previous_warnings_count
      reasoning := "Fallback analysis" }

/-- `analyzeMessageWithGroq` of `src/moderation/groq-engine.js`.
`ownerId` is `process.env.DISCORD_OWNER_ID`; `aiResponse` is the parsed Groq
reply, `none` standing for any API failure (network, timeout, malformed
JSON), which takes the `catch` branch into `fallbackAnalysis`.
Step order mirrors the source: owner bypass, CAPTCHA gate, classifier with
history adjustment, rule-based fallback. -/
def analyzeMessageWithGroq (ownerId : String) (aiResponse : Option ModerationResult)
    (rx : RegexHits) (input : ModerationInput) : ModerationResult :=
  if input.user_id = ownerId then ownerBypassResult
  else if shouldRequireCaptcha input then captchaRequiredResult
  else
    match aiResponse with
    | some r => adjustForUserHistory r input
    | none => fallbackAnalysis ownerId rx input

/-! ## Example settings used by the concrete theorems -/

/-- Night mode enabled with the default 23 → 7 interval. -/
def nightSettings23to7 : AntiNukeSettings :=
  { DEFAULT_SETTINGS with nightmodeEnabled := true }

/-- Night mode enabled with a same-day 1 → 5 interval. -/
def nightSettings1to5 : AntiNukeSettings :=
  { DEFAULT_SETTINGS with
      nightmodeEnabled := true, nightmodeStartHour := 1, nightmodeEndHour := 5 }

/-- Night mode enabled with a configured start hour of 0 (midnight) and end
hour 5 — the configuration the falsy-default behaviour rewrites. -/
def zeroStartSettings : AntiNukeSettings :=
  { DEFAULT_SETTINGS with
      nightmodeEnabled := true, nightmodeStartHour := 0, nightmodeEndHour := 5 }

/-! ## Theorems -/

/-- Claim C3: whenever `punishUser` resolves the member and that member is the
guild owner, the call aborts before any enforcement: no role is removed, no
ban, kick or role-strip is applied, no owner notification is sent and no
lockdown is initiated. -/
theorem punishUser_owner_protected (s : AntiNukeSettings) (hour : Nat)
    (guild : Guild) (m : Member) (h : m.id = guild.ownerId) :
    punishUser s hour guild (some m) = noPunish := by
  simp [punishUser, h]

/-- Concrete instance of `punishUser_owner_protected`: even with a punishment
policy of BAN, owner notification and lockdown-on-trigger all configured, the
guild owner (here holding an administrator role) is left untouched. -/
theorem punishUser_owner_protected_witness :
    (Member.mk "owner1" [Role.mk "admin" true true true]).id
      = (Guild.mk "g1" "owner1").ownerId ∧
    punishUser DEFAULT_SETTINGS 3 (Guild.mk "g1" "owner1")
      (some (Member.mk "owner1" [Role.mk "admin" true true true])) = noPunish :=
  ⟨rfl, punishUser_owner_protected DEFAULT_SETTINGS 3 (Guild.mk "g1" "owner1")
    (Member.mk "owner1" [Role.mk "admin" true true true]) rfl⟩

/-- Claim C9: an input whose `user_id` matches the designated owner identity
makes `analyzeMessageWithGroq` return the fixed SAFE/ALLOW decision with the
fixed justification, for every classifier response, regex outcome and input
context — the CAPTCHA gate, the classifier and the fallback are all
skipped. -/
theorem analyzeMessage_owner_bypass (ownerId : String)
    (ai : Option ModerationResult) (rx : RegexHits) (input : ModerationInput)
    (h : input.user_id = ownerId) :
    analyzeMessageWithGroq ownerId ai rx input = ownerBypassResult ∧
    (analyzeMessageWithGroq ownerId ai rx input).risk_level = "SAFE" ∧
    (analyzeMessageWithGroq ownerId ai rx input).recommended_action = "ALLOW" ∧
    (analyzeMessageWithGroq ownerId ai rx input).reasoning
      = "Bot owner - moderation bypassed" := by
  simp [analyzeMessageWithGroq, h, ownerBypassResult]

/-- Concrete instance of `analyzeMessage_owner_bypass`: an unverified owner
account with five open warnings, scam content, every regex set matching and a
classifier verdict recommending KICK still yields the fixed SAFE/ALLOW
decision. -/
theorem analyzeMessage_owner_bypass_witness :
    (ModerationInput.mk "FREE NITRO bit.ly/xyz" [] 0 0 true true true 5 false
      "owner9").user_id = "owner9" ∧
    (analyzeMessageWithGroq "owner9"
        (some (ModerationResult.mk 95 "DANGEROUS" ["SCAM"] "KICK" "ai"))
        (RegexHits.mk 3 3 2)
        (ModerationInput.mk "FREE NITRO bit.ly/xyz" [] 0 0 true true true 5 false
          "owner9")
      = ownerBypassResult ∧
     (analyzeMessageWithGroq "owner9"
        (some (ModerationResult.mk 95 "DANGEROUS" ["SCAM"] "KICK" "ai"))
        (RegexHits.mk 3 3 2)
        (ModerationInput.mk "FREE NITRO bit.ly/xyz" [] 0 0 true true true 5 false
          "owner9")).risk_level = "SAFE" ∧
     (analyzeMessageWithGroq "owner9"
        (some (ModerationResult.mk 95 "DANGEROUS" ["SCAM"] "KICK" "ai"))
        (RegexHits.mk 3 3 2)
        (ModerationInput.mk "FREE NITRO bit.ly/xyz" [] 0 0 true true true 5 false
          "owner9")).recommended_action = "ALLOW" ∧
     (analyzeMessageWithGroq "owner9"
        (some (ModerationResult.mk 95 "DANGEROUS" ["SCAM"] "KICK" "ai"))
        (RegexHits.mk 3 3 2)
        (ModerationInput.mk "FREE NITRO bit.ly/xyz" [] 0 0 true true true 5 false
          "owner9")).reasoning = "Bot owner - moderation bypassed") :=
  ⟨rfl, analyzeMessage_owner_bypass "owner9"
    (some (ModerationResult.mk 95 "DANGEROUS" ["SCAM"] "KICK" "ai"))
    (RegexHits.mk 3 3 2)
    (ModerationInput.mk "FREE NITRO bit.ly/xyz" [] 0 0 true true true 5 false
      "owner9") rfl⟩

/-- Claim C10: with night mode enabled, `isNightMode` evaluates the interval
check on the configured hours with every zero hour replaced by the default
(start 0 → 23, end 0 → 7), because `|| 23` / `|| 7` treats 0 as falsy; and
concretely, for start = 0, end = 5, hour 23 is classified as night although
the configured interval `[0, 5)` excludes it. -/
theorem isNightMode_falsy_defaults (s : AntiNukeSettings) (h : Nat)
    (he : s.nightmodeEnabled = true) :
    isNightMode s h
      = nightIntervalCheck
          (if s.nightmodeStartHour = 0 then 23 else s.nightmodeStartHour)
          (if s.nightmodeEndHour = 0 then 7 else s.nightmodeEndHour) h ∧
    isNightMode zeroStartSettings 23 = true ∧
    nightIntervalCheck zeroStartSettings.nightmodeStartHour
      zeroStartSettings.nightmodeEndHour 23 = false := by
  refine ⟨?_, by decide, by decide⟩
  simp [isNightMode, he]

/-- Concrete instance of `isNightMode_falsy_defaults` at the settings with
configured start 0, end 5, hour 23. -/
theorem isNightMode_falsy_defaults_witness :
    zeroStartSettings.nightmodeEnabled = true ∧
    (isNightMode zeroStartSettings 23
      = nightIntervalCheck
          (if zeroStartSettings.nightmodeStartHour = 0 then 23
            else zeroStartSettings.nightmodeStartHour)
          (if zeroStartSettings.nightmodeEndHour = 0 then 7
            else zeroStartSettings.nightmodeEndHour) 23 ∧
     isNightMode zeroStartSettings 23 = true ∧
     nightIntervalCheck zeroStartSettings.nightmodeStartHour
       zeroStartSettings.nightmodeEndHour 23 = false) :=
  ⟨rfl, isNightMode_falsy_defaults zeroStartSettings 23 rfl⟩

/-- Claim C2, counterexample: the claim's interval formula is stated on the
configured hours, but with the configuration start = 0, end = 5 (night mode
enabled) and current hour 23, `isNightMode` reports night while the claimed
same-day formula `hour ≥ 0 ∧ hour < 5` reports day — the falsy-default
substitution of the source changes the evaluated interval. -/
theorem isNightMode_configured_zero_start_cex :
    zeroStartSettings.nightmodeEnabled = true ∧
    ¬ zeroStartSettings.nightmodeStartHour > zeroStartSettings.nightmodeEndHour ∧
    isNightMode zeroStartSettings 23 = true ∧
    ¬ (zeroStartSettings.nightmodeStartHour ≤ 23 ∧
        23 < zeroStartSettings.nightmodeEndHour) := by
  decide

/-- Claim C2, amended: for settings whose configured start and end hours are
both nonzero (so the falsy defaults do not fire), `isNightMode` reports night
exactly per the claimed wrap-around/same-day formulas, reports day whenever
night mode is disabled, and the claim's concrete examples hold. -/
theorem isNightMode_interval_spec (s : AntiNukeSettings) (h : Nat)
    (hs : s.nightmodeStartHour ≠ 0) (he : s.nightmodeEndHour ≠ 0) :
    (s.nightmodeEnabled = false → isNightMode s h = false) ∧
    (s.nightmodeEnabled = true → s.nightmodeStartHour > s.nightmodeEndHour →
      (isNightMode s h = true ↔
        (s.nightmodeStartHour ≤ h ∨ h < s.nightmodeEndHour))) ∧
    (s.nightmodeEnabled = true → ¬ s.nightmodeStartHour > s.nightmodeEndHour →
      (isNightMode s h = true ↔
        (s.nightmodeStartHour ≤ h ∧ h < s.nightmodeEndHour))) ∧
    isNightMode nightSettings23to7 2 = true ∧
    isNightMode nightSettings23to7 12 = false ∧
    isNightMode nightSettings1to5 3 = true ∧
    isNightMode nightSettings1to5 12 = false := by
  refine ⟨?_, ?_, ?_, by decide, by decide, by decide, by decide⟩
  · intro hdis
    simp [isNightMode, hdis]
  · intro hen hgt
    simp [isNightMode, nightIntervalCheck, hen, hs, he, hgt]
  · intro hen hle
    simp [isNightMode, nightIntervalCheck, hen, hs, he, hle]

/-- Concrete instance of `isNightMode_interval_spec` at the 23 → 7
configuration and hour 2. -/
theorem isNightMode_interval_spec_witness :
    nightSettings23to7.nightmodeStartHour ≠ 0 ∧
    nightSettings23to7.nightmodeEndHour ≠ 0 ∧
    ((nightSettings23to7.nightmodeEnabled = false →
        isNightMode nightSettings23to7 2 = false) ∧
     (nightSettings23to7.nightmodeEnabled = true →
        nightSettings23to7.nightmodeStartHour > nightSettings23to7.nightmodeEndHour →
        (isNightMode nightSettings23to7 2 = true ↔
          (nightSettings23to7.nightmodeStartHour ≤ 2 ∨
            2 < nightSettings23to7.nightmodeEndHour))) ∧
     (nightSettings23to7.nightmodeEnabled = true →
        ¬ nightSettings23to7.nightmodeStartHour > nightSettings23to7.nightmodeEndHour →
        (isNightMode nightSettings23to7 2 = true ↔
          (nightSettings23to7.nightmodeStartHour ≤ 2 ∧
            2 < nightSettings23to7.nightmodeEndHour))) ∧
     isNightMode nightSettings23to7 2 = true ∧
     isNightMode nightSettings23to7 12 = false ∧
     isNightMode nightSettings1to5 3 = true ∧
     isNightMode nightSettings1to5 12 = false) :=
  ⟨by decide, by decide, isNightMode_interval_spec nightSettings23to7 2
    (by decide) (by decide)⟩

/-- Claim C7: whenever the kick operation is unavailable (no member, not
kickable) or its API call fails, `handleKick` defers to `handleMute`; whenever
the timeout is likewise unavailable or fails, `handleMute` defers to
`handleDelete`; and `executeAction` returns the action string for each
enforcement tier rather than an error. -/
theorem content_enforcement_fallback (env : ContentModEnv)
    (hk : env.memberPresent = false ∨ env.kickable = false ∨
      env.kickSucceeds = false) :
    handleKick env = handleMute env ∧
    ((env.memberPresent = false ∨ env.moderatable = false ∨
        env.timeoutSucceeds = false) →
      handleMute env = handleDelete env) ∧
    (executeAction "KICK" env).1 = "KICK" ∧
    (executeAction "MUTE" env).1 = "MUTE" ∧
    (executeAction "DELETE" env).1 = "DELETE" := by
  rcases env with ⟨mp, kb, md, del, ks, ts⟩
  revert hk
  cases mp <;> cases kb <;> cases md <;> cases del <;> cases ks <;> cases ts <;>
    decide

/-- Concrete instance of `content_enforcement_fallback`: a kickable,
moderatable, deletable member whose kick and timeout calls both fail ends in
the delete tier, and `executeAction "KICK"` still reports "KICK". -/
theorem content_enforcement_fallback_witness :
    ((ContentModEnv.mk true true true true false false).memberPresent = false ∨
      (ContentModEnv.mk true true true true false false).kickable = false ∨
      (ContentModEnv.mk true true true true false false).kickSucceeds = false) ∧
    (handleKick (ContentModEnv.mk true true true true false false)
        = handleMute (ContentModEnv.mk true true true true false false) ∧
     (((ContentModEnv.mk true true true true false false).memberPresent = false ∨
        (ContentModEnv.mk true true true true false false).moderatable = false ∨
        (ContentModEnv.mk true true true true false false).timeoutSucceeds = false) →
       handleMute (ContentModEnv.mk true true true true false false)
         = handleDelete (ContentModEnv.mk true true true true false false)) ∧
     (executeAction "KICK" (ContentModEnv.mk true true true true false false)).1
        = "KICK" ∧
     (executeAction "MUTE" (ContentModEnv.mk true true true true false false)).1
        = "MUTE" ∧
     (executeAction "DELETE" (ContentModEnv.mk true true true true false false)).1
        = "DELETE") :=
  ⟨by decide, content_enforcement_fallback
    (ContentModEnv.mk true true true true false false) (by decide)⟩

/-- A store whose database holds the default settings for guild `g1` and
whose in-memory cache is still empty. -/
def freshStore : SettingsStore where
  cache := fun _ => none
  db := fun g => if g = "g1" then some DEFAULT_SETTINGS else none

/-- The settings written by the `/antinuke disable` subcommand. -/
def disabledSettings : AntiNukeSettings :=
  { DEFAULT_SETTINGS with enabled := false }

/-- Claim C4: once guild `g1`'s settings are cached by a `getSettings` call,
an explicit `updateAntiNukeSettings` (here: `/antinuke disable`) reaches the
database row but not the cache, so the next `getSettings` still returns the
pre-update settings — the protection stays enabled in memory although the
command replied that it is now inactive. -/
theorem settingsCache_stale_after_update :
    (getSettings freshStore "g1").2 = DEFAULT_SETTINGS ∧
    (handleAntiNukeUpdate (getSettings freshStore "g1").1 "g1"
      disabledSettings).db "g1" = some disabledSettings ∧
    (getSettings
      (handleAntiNukeUpdate (getSettings freshStore "g1").1 "g1"
        disabledSettings) "g1").2 = DEFAULT_SETTINGS ∧
    (getSettings
      (handleAntiNukeUpdate (getSettings freshStore "g1").1 "g1"
        disabledSettings) "g1").2.enabled = true ∧
    disabledSettings.enabled = false := by
  decide

/-- A channel-delete event whose attributed executor sits on the settings
whitelist. -/
def wlEnv : ChannelDeleteEnv where
  settings := { DEFAULT_SETTINGS with whitelist := ["attacker"] }
  currentHour := 12
  guild := Guild.mk "g1" "owner1"
  channelName := "general"
  trustedUsers := []
  auditExecutor := some "attacker"
  executorMember := some (Member.mk "attacker" [])
  now := 1000
  dbLogFails := false

/-- Claim C5, counterexample: for a whitelisted executor the handler returns
before `logSecurityEvent`, so no security record is attempted, let alone
written — the event is not "recorded as an audit record". -/
theorem whitelisted_event_skips_audit_cex :
    isWhitelisted wlEnv.settings wlEnv.trustedUsers "attacker" = true ∧
    (handleChannelDelete wlEnv emptyTracker).2.auditAttempted = false ∧
    (handleChannelDelete wlEnv emptyTracker).2.auditLogged = false := by
  decide

/-- Claim C5, amended: for a whitelisted (or trusted) attributed executor the
handler neither increments the sliding-window counter nor punishes — but it
also skips the security-event write entirely, returning with the tracker
unchanged and only a console line emitted. -/
theorem whitelisted_event_skipped (env : ChannelDeleteEnv) (tracker : Tracker)
    (executor : String) (hx : env.auditExecutor = some executor)
    (hw : isWhitelisted env.settings env.trustedUsers executor = true) :
    handleChannelDelete env tracker = (tracker, channelDeleteSkipped) := by
  by_cases hen : env.settings.enabled
  · simp [handleChannelDelete, hen, hx, hw]
  · simp [handleChannelDelete, hen]

/-- Concrete instance of `whitelisted_event_skipped` at `wlEnv`. -/
theorem whitelisted_event_skipped_witness :
    wlEnv.auditExecutor = some "attacker" ∧
    isWhitelisted wlEnv.settings wlEnv.trustedUsers "attacker" = true ∧
    handleChannelDelete wlEnv emptyTracker = (emptyTracker, channelDeleteSkipped) :=
  ⟨rfl, by decide, whitelisted_event_skipped wlEnv emptyTracker "attacker" rfl
    (by decide)⟩

/-- Claim C6: when a channel-delete event reaches the punishment branch and
the security-event insert fails (`logSecurityEvent` throws), the inner
try/catch swallows the failure: the handler still returns normally with the
punishment and channel restoration recorded as taken, only the audit write is
marked failed. -/
theorem audit_failure_swallowed (env : ChannelDeleteEnv) (tracker : Tracker)
    (executor : String)
    (hen : env.settings.enabled = true)
    (hx : env.auditExecutor = some executor)
    (hw : isWhitelisted env.settings env.trustedUsers executor = false)
    (hdb : env.dbLogFails = true)
    (hc : getEffectiveLimit env.settings .channelDeleteLimit env.currentHour ≤
      (trackAction tracker env.guild.id executor "CHANNEL_DELETE" env.now
        env.settings).2) :
    handleChannelDelete env tracker
      = ((trackAction tracker env.guild.id executor "CHANNEL_DELETE" env.now
            env.settings).1,
         { tracked := true
           count := some (trackAction tracker env.guild.id executor
            "CHANNEL_DELETE" env.now env.settings).2
           punish := some (punishUser env.settings env.currentHour env.guild
            env.executorMember)
           channelRestored := true
           auditAttempted := true
           auditLogged := false }) := by
  simp [handleChannelDelete, hen, hx, hw, hdb, logSecurityEvent, hc]

/-- The tracker state right before the third channel deletion of the attack
scenario used to instantiate `audit_failure_swallowed`. -/
def burstTracker : Tracker := fun k =>
  if k = trackKey "g1" "attacker" "CHANNEL_DELETE" then [100, 200] else []

/-- The third channel deletion of a burst, with a failing security-event
insert. -/
def burstEnv : ChannelDeleteEnv where
  settings := DEFAULT_SETTINGS
  currentHour := 12
  guild := Guild.mk "g1" "owner1"
  channelName := "general"
  trustedUsers := []
  auditExecutor := some "attacker"
  executorMember := some (Member.mk "attacker" [Role.mk "admin" true false false])
  now := 300
  dbLogFails := true

/-- Concrete instance of `audit_failure_swallowed`: the third deletion inside
the window reaches the default limit of 3 while the database insert fails;
the outcome still carries the punishment and the restoration. -/
theorem audit_failure_swallowed_witness :
    burstEnv.settings.enabled = true ∧
    burstEnv.auditExecutor = some "attacker" ∧
    isWhitelisted burstEnv.settings burstEnv.trustedUsers "attacker" = false ∧
    burstEnv.dbLogFails = true ∧
    getEffectiveLimit burstEnv.settings .channelDeleteLimit burstEnv.currentHour ≤
      (trackAction burstTracker burstEnv.guild.id "attacker" "CHANNEL_DELETE"
        burstEnv.now burstEnv.settings).2 ∧
    handleChannelDelete burstEnv burstTracker
      = ((trackAction burstTracker burstEnv.guild.id "attacker" "CHANNEL_DELETE"
            burstEnv.now burstEnv.settings).1,
         { tracked := true
           count := some (trackAction burstTracker burstEnv.guild.id "attacker"
            "CHANNEL_DELETE" burstEnv.now burstEnv.settings).2
           punish := some (punishUser burstEnv.settings burstEnv.currentHour
            burstEnv.guild burstEnv.executorMember)
           channelRestored := true
           auditAttempted := true
           auditLogged := false }) :=
  ⟨rfl, rfl, by decide, rfl, by decide,
    audit_failure_swallowed burstEnv burstTracker "attacker" rfl rfl (by decide)
      rfl (by decide)⟩

/-- What `unlockServer` does to one surviving channel: clear the default
role's send overwrite of text channels, leave the rest alone. -/
def unlockMap (c : GuildChannel) : GuildChannel :=
  if c.textBased then { c with everyoneSendMessages := PermState.neutral } else c

/-- A text channel whose default role send permission was explicitly allowed
before the lockdown. -/
def preLockChannel : GuildChannel where
  name := "general"
  textBased := true
  everyoneSendMessages := PermState.allow

/-- Claim C8, counterexample: a channel that carried an explicit allow
overwrite before the lockdown comes out of unlock with a neutral (cleared)
overwrite, not its prior state — `unlockServer` writes `SendMessages: null`
instead of the value saved before locking (nothing is saved at all).  The
announcement channel removal itself works. -/
theorem unlock_resets_not_restores_cex :
    unlockServer (initiateServerLockdown [preLockChannel] false)
      = [GuildChannel.mk "general" true PermState.neutral] ∧
    preLockChannel.everyoneSendMessages = PermState.allow ∧
    PermState.neutral ≠ PermState.allow := by
  decide

/-- Claim C8, amended: unlocking a locked-down tenant removes the dedicated
lockdown announcement channel and sets every remaining text channel's default
role send permission to neutral (no overwrite); that equals the prior state
exactly when the channel had no explicit overwrite before the lockdown. -/
theorem unlockServer_spec (cs : List GuildChannel) (isNight : Bool)
    (hn : ∀ c ∈ cs, c.name ≠ "🔒-server-lockdown" ∧ c.name ≠ "🌙-night-lockdown") :
    unlockServer (initiateServerLockdown cs isNight) = cs.map unlockMap ∧
    ((∀ c ∈ cs, c.textBased = true → c.everyoneSendMessages = PermState.neutral) →
      unlockServer (initiateServerLockdown cs isNight) = cs) := by
  have haux : ∀ (l : List GuildChannel),
      (∀ c ∈ l, c.name ≠ "🔒-server-lockdown" ∧ c.name ≠ "🌙-night-lockdown") →
      unlockServer (initiateServerLockdown l isNight) = l.map unlockMap := by
    intro l
    induction l with
    | nil => intro _; cases isNight <;> decide
    | cons c rest ih =>
      intro hl
      obtain ⟨h1, h2⟩ := hl c (List.mem_cons_self c rest)
      have ih' := ih fun x hx => hl x (List.mem_cons_of_mem c hx)
      have hstep : initiateServerLockdown (c :: rest) isNight
          = (if c.textBased then { c with everyoneSendMessages := PermState.deny }
              else c) :: initiateServerLockdown rest isNight := by
        simp [initiateServerLockdown]
      rw [hstep]
      rcases c with ⟨nm, tb, ov⟩
      cases tb
      · simp only [unlockServer] at ih' ⊢
        simp [unlockMap] at ih' ⊢
        exact ih'
      · simp only [unlockServer] at ih' ⊢
        simp [unlockMap, h1, h2] at ih' ⊢
        exact ih'
  have hmain := haux cs hn
  refine ⟨hmain, fun hneu => ?_⟩
  rw [hmain]
  have : ∀ (l : List GuildChannel),
      (∀ c ∈ l, c.textBased = true → c.everyoneSendMessages = PermState.neutral) →
      l.map unlockMap = l := by
    intro l
    induction l with
    | nil => intro _; rfl
    | cons c rest ih =>
      intro hl
      have hc := hl c (List.mem_cons_self c rest)
      have hr := ih fun x hx => hl x (List.mem_cons_of_mem c hx)
      rcases c with ⟨nm, tb, ov⟩
      cases tb
      · simp [unlockMap, hr]
      · have : ov = PermState.neutral := hc rfl
        simp [unlockMap, hr, this]
  exact this cs hneu

/-- Concrete instance of `unlockServer_spec`: one already-neutral text channel
and one voice channel go through lockdown and unlock and come back exactly as
they were, with the announcement channel gone. -/
theorem unlockServer_spec_witness :
    (∀ c ∈ [GuildChannel.mk "general" true PermState.neutral,
            GuildChannel.mk "voice" false PermState.allow],
      c.name ≠ "🔒-server-lockdown" ∧ c.name ≠ "🌙-night-lockdown") ∧
    (unlockServer (initiateServerLockdown
        [GuildChannel.mk "general" true PermState.neutral,
         GuildChannel.mk "voice" false PermState.allow] false)
      = [GuildChannel.mk "general" true PermState.neutral,
         GuildChannel.mk "voice" false PermState.allow].map unlockMap ∧
     ((∀ c ∈ [GuildChannel.mk "general" true PermState.neutral,
              GuildChannel.mk "voice" false PermState.allow],
        c.textBased = true → c.everyoneSendMessages = PermState.neutral) →
       unlockServer (initiateServerLockdown
          [GuildChannel.mk "general" true PermState.neutral,
           GuildChannel.mk "voice" false PermState.allow] false)
        = [GuildChannel.mk "general" true PermState.neutral,
           GuildChannel.mk "voice" false PermState.allow])) :=
  ⟨by decide, unlockServer_spec
    [GuildChannel.mk "general" true PermState.neutral,
     GuildChannel.mk "voice" false PermState.allow] false (by decide)⟩

/-- The stored list of a key after one `trackAction` call: the pruned old
timestamps followed by the appended `now`. -/
theorem trackAction_fst (tracker : Tracker) (g u a : String) (now : Nat)
    (s : AntiNukeSettings) :
    (trackAction tracker g u a now s).1 (trackKey g u a)
      = ((tracker (trackKey g u a)).filter fun time => now - time < s.timeWindow)
        ++ [now] := by
  simp [trackAction]

/-- Counts returned by a call sequence whose timestamps are ordered and all
inside one window of each other (and fresh relative to everything already
stored): the k-th call returns `stored + k`. -/
theorem trackActionSeq_counts (s : AntiNukeSettings) (g u a : String) :
    ∀ (times : List Nat) (tracker : Tracker),
      (∀ x ∈ tracker (trackKey g u a), ∀ y ∈ times, y - x < s.timeWindow) →
      List.Pairwise (fun x y => x ≤ y ∧ y - x < s.timeWindow) times →
      (trackActionSeq tracker g u a times s).2
        = List.range' ((tracker (trackKey g u a)).length + 1) times.length := by
  intro times
  induction times with
  | nil =>
    intro tracker _ _
    simp [trackActionSeq]
  | cons t rest ih =>
    intro tracker hpast hp
    obtain ⟨hhead, hrest⟩ := List.pairwise_cons.mp hp
    have hkeep : ((tracker (trackKey g u a)).filter fun time => t - time < s.timeWindow)
        = tracker (trackKey g u a) := by
      apply List.filter_eq_self.mpr
      intro x hx
      simpa using hpast x hx t (List.mem_cons_self t rest)
    have hstate : (trackAction tracker g u a t s).1 (trackKey g u a)
        = tracker (trackKey g u a) ++ [t] := by
      rw [trackAction_fst, hkeep]
    have hcount : (trackAction tracker g u a t s).2
        = (tracker (trackKey g u a)).length + 1 := by
      simp [trackAction, hkeep]
    have hnext := ih (trackAction tracker g u a t s).1 (by
      rw [hstate]
      intro x hx y hy
      rcases List.mem_append.mp hx with hx' | hx'
      · exact hpast x hx' y (List.mem_cons_of_mem t hy)
      · have : x = t := by simpa using hx'
        subst this
        exact (hhead y hy).2) hrest
    rw [hstate] at hnext
    show (trackAction tracker g u a t s).2 ::
        (trackActionSeq (trackAction tracker g u a t s).1 g u a rest s).2 = _
    rw [hcount, hnext]
    simp [List.range'_succ]

/-- Claim C1: every `trackAction` call returns the length of the stored list
it leaves behind, which contains the appended `now`, no timestamp older than
`now - window`, and only timestamps inside the window; and for a fresh
`(tenant, actor, action-kind)` key, a sequence of calls all inside one window
returns the counts 1, 2, …, n — so `limit - 1` in-window events return counts
strictly below `limit`, the `limit`-th returns exactly `limit`, and a stored
timestamp older than `window` relative to `now` never contributes to a
returned count. -/
theorem trackAction_sliding_window
    (s : AntiNukeSettings) (g u a : String) (tracker : Tracker)
    (now t : Nat) (times : List Nat) (limit : Nat)
    (hw : 0 < s.timeWindow)
    (hp : List.Pairwise (fun x y => x ≤ y ∧ y - x < s.timeWindow) times) :
    (trackAction tracker g u a now s).2
      = ((trackAction tracker g u a now s).1 (trackKey g u a)).length ∧
    now ∈ (trackAction tracker g u a now s).1 (trackKey g u a) ∧
    (s.timeWindow < now - t →
      t ∉ (trackAction tracker g u a now s).1 (trackKey g u a)) ∧
    (∀ x ∈ (trackAction tracker g u a now s).1 (trackKey g u a),
      now - x < s.timeWindow) ∧
    (trackActionSeq emptyTracker g u a times s).2 = List.range' 1 times.length ∧
    (times.length < limit →
      ∀ c ∈ (trackActionSeq emptyTracker g u a times s).2, c < limit) ∧
    (times.length = limit → 0 < limit →
      (trackActionSeq emptyTracker g u a times s).2.getLast? = some limit) := by
  have hseq : (trackActionSeq emptyTracker g u a times s).2
      = List.range' 1 times.length := by
    have := trackActionSeq_counts s g u a times emptyTracker
      (fun x hx => by simp [emptyTracker] at hx) hp
    simpa [emptyTracker] using this
  refine ⟨?_, ?_, ?_, ?_, hseq, ?_, ?_⟩
  · simp [trackAction]
  · rw [trackAction_fst]
    exact List.mem_append_right _ (List.mem_singleton.mpr rfl)
  · intro hold hmem
    rw [trackAction_fst] at hmem
    rcases List.mem_append.mp hmem with hmem' | hmem'
    · have := List.of_mem_filter hmem'
      simp at this
      omega
    · have : t = now := by simpa using hmem'
      omega
  · intro x hx
    rw [trackAction_fst] at hx
    rcases List.mem_append.mp hx with hx' | hx'
    · have := List.of_mem_filter hx'
      simpa using this
    · have : x = now := by simpa using hx'
      subst this
      simpa using hw
  · intro hlt c hc
    rw [hseq] at hc
    have := List.mem_range'_1.mp hc
    omega
  · intro hlen hpos
    rw [hseq, hlen]
    obtain ⟨m, rfl⟩ := Nat.exists_eq_succ_of_ne_zero (Nat.pos_iff_ne_zero.mp hpos)
    rw [List.range'_1_concat, List.getLast?_concat, Nat.add_comm]

/-- Concrete instance of `trackAction_sliding_window` with the default
settings (window 10000 ms, channel-delete limit 3): three deletions at 0, 1
and 2 ms return counts 1, 2, 3 — the third reaches the limit — and a call at
20000 ms keeps only itself. -/
theorem trackAction_sliding_window_witness :
    0 < DEFAULT_SETTINGS.timeWindow ∧
    List.Pairwise (fun x y => x ≤ y ∧ y - x < DEFAULT_SETTINGS.timeWindow)
      [0, 1, 2] ∧
    ((trackAction emptyTracker "g" "u" "CHANNEL_DELETE" 20000 DEFAULT_SETTINGS).2
      = ((trackAction emptyTracker "g" "u" "CHANNEL_DELETE" 20000
            DEFAULT_SETTINGS).1 (trackKey "g" "u" "CHANNEL_DELETE")).length ∧
     20000 ∈ (trackAction emptyTracker "g" "u" "CHANNEL_DELETE" 20000
        DEFAULT_SETTINGS).1 (trackKey "g" "u" "CHANNEL_DELETE") ∧
     (DEFAULT_SETTINGS.timeWindow < 20000 - 5 →
       5 ∉ (trackAction emptyTracker "g" "u" "CHANNEL_DELETE" 20000
          DEFAULT_SETTINGS).1 (trackKey "g" "u" "CHANNEL_DELETE")) ∧
     (∀ x ∈ (trackAction emptyTracker "g" "u" "CHANNEL_DELETE" 20000
          DEFAULT_SETTINGS).1 (trackKey "g" "u" "CHANNEL_DELETE"),
       20000 - x < DEFAULT_SETTINGS.timeWindow) ∧
     (trackActionSeq emptyTracker "g" "u" "CHANNEL_DELETE" [0, 1, 2]
        DEFAULT_SETTINGS).2 = List.range' 1 (List.length [0, 1, 2]) ∧
     (List.length [0, 1, 2] < 3 →
       ∀ c ∈ (trackActionSeq emptyTracker "g" "u" "CHANNEL_DELETE" [0, 1, 2]
          DEFAULT_SETTINGS).2, c < 3) ∧
     (List.length [0, 1, 2] = 3 → 0 < 3 →
       (trackActionSeq emptyTracker "g" "u" "CHANNEL_DELETE" [0, 1, 2]
          DEFAULT_SETTINGS).2.getLast? = some 3)) :=
  ⟨by decide, by decide,
    trackAction_sliding_window DEFAULT_SETTINGS "g" "u" "CHANNEL_DELETE"
      emptyTracker 20000 5 [0, 1, 2] 3 (by decide) (by decide)⟩

end SentinelAI
